import Mathlib

/-!
Shallow embedding of the three Helios state-transition validators of the
rwa-contract repository (`wrapped_asset`, `one_to_one_asset`,
`account_aggregate`) and proofs about their admission behaviour.

Modelling conventions:
* Helios `Int` is `Int`; Helios `Real` (a 6-decimal fixed point number) is
  modelled as `ℚ`; Helios `ByteArray` is `List Nat`; Helios `String` is
  `String`.
* Only the parts of the script context that the validators inspect are
  modelled: transaction inputs and outputs restricted to the token map of
  the own minting policy, the minted token map of the own policy, and the
  transaction signatories.  Addresses are modelled as the own validator
  address versus numbered foreign addresses.
* Module-level `const` declarations of each validator (oracle keys, seed
  reference, metadata constants) are gathered in a per-variant `Config`
  record; the derived constants (`QUORUM`, token names, derived metadata
  strings) are functions of that record, exactly as derived in the source.
* Each Helios `assert(cond, msg)` becomes `req cond msg rest` in an
  `Except String Unit` computation, preserving the order of the asserts
  and the message strings (apostrophes in two message strings are spelled
  out as `cannot`).
* The `main` entry point of each validator dispatches on Spending versus
  Other (minting); the two branches are modelled as `main_spending` and
  `main_minting`.
-/

namespace RWA

/-- Helios ByteArray, as a list of byte values. -/
abbrev Bytes := List Nat

/-- Public key hash of an oracle, abstracted to a number. -/
abbrev PubKeyHash := Nat

/-- Output reference (transaction id and output index) identifying a UTXO. -/
structure TxOutputId where
  txId : Bytes
  idx : Nat
deriving DecidableEq, Repr

/-- Address of a transaction input or output: either the own validator
address of the variant under consideration, or some foreign address. -/
inductive Addr
  | own
  | other (n : Nat)
deriving DecidableEq, Repr

/-- Token name within the own minting policy. -/
abbrev TokenName := Bytes

/-- CIP-67 label bytes of fungible user tokens (label 333). -/
def fungible_token_label : Bytes := [0x00, 0x14, 0xdf, 0x10]

/-- CIP-67 label bytes of CIP-68 reference tokens (label 100). -/
def reference_token_label : Bytes := [0x00, 0x06, 0x43, 0xb0]

/-- Helios `Value.get_safe` restricted to the own policy: quantity of the
given token name in a token map, `0` when absent. -/
def get_safe : List (TokenName × Int) → TokenName → Int
  | [], _ => 0
  | (nm, qty) :: rest, name => if nm = name then qty else get_safe rest name

/-- Transaction input as seen by the validators: its output reference, its
address, its own-policy token map and its (optional, already decoded)
inline datum. -/
structure TxInput (D : Type) where
  output_id : TxOutputId
  address : Addr
  ownTokens : List (TokenName × Int)
  datum : Option D

/-- Transaction output as seen by the validators. -/
structure TxOutput (D : Type) where
  address : Addr
  ownTokens : List (TokenName × Int)
  datum : Option D

/-- The parts of the enclosing transaction inspected by the validators. -/
structure Tx (D : Type) where
  inputs : List (TxInput D)
  outputs : List (TxOutput D)
  mintedOwn : List (TokenName × Int)
  signatories : List PubKeyHash

/-- CIP-68 `extra` field; the only recognised value is `Unused`. -/
inductive Cip68Extra
  | Unused
deriving DecidableEq, Repr

/-- CIP-68 metadata wrapper: the record state, the metadata schema version
and the extra field (the Helios enum has the single member `Cip68`). -/
structure Metadata (S : Type) where
  state : S
  version : Int
  extra : Cip68Extra
deriving DecidableEq

/-- Helios `assert(cond, msg)` followed by the rest of the computation:
when `cond` holds the rest runs, otherwise the transition fails with
`msg`. -/
def req (cond : Prop) [Decidable cond] (msg : String) (rest : Except String Unit) :
    Except String Unit :=
  if cond then rest else .error msg

/-- Number of configured oracle keys that signed the transaction, as the
fold in `signed_by_quorum` computes it (the source folds with a Helios
`Int` accumulator starting at `0`; the count is non-negative, so `Nat`). -/
def n_signers (oracle_keys : List PubKeyHash) (sigs : List PubKeyHash) : Nat :=
  oracle_keys.foldl (fun n key => n + (if sigs.contains key then 1 else 0)) 0

end RWA

namespace Wrapped

open RWA

/-- Registry record state of the `wrapped_asset` validator. -/
structure State where
  supply : Int
  type : String
  venue : String
  policy : String
  account : String
  ticker : String
  name : String
  description : String
  decimals : Int
  url : String
  logo : String
  quorum : Int
  oracles : List PubKeyHash
  seed : TxOutputId
deriving DecidableEq, Repr

/-- Spending redeemer of the `wrapped_asset` validator. -/
structure Redeemer where
  reserves : Int

/-- Compile-time `const` parameters of the `wrapped_asset` validator. -/
structure Config where
  TYPE : String
  VENUE : String
  POLICY : String
  ACCOUNT : String
  TICKER : String
  DECIMALS : Int
  ORACLES : List PubKeyHash
  SEED : TxOutputId

/-- Derived constant `QUORUM = (ORACLES.length + 1)/2` (Helios integer
division on the non-negative list length). -/
def QUORUM (cfg : Config) : Nat := (cfg.ORACLES.length + 1) / 2

/-- Derived constant `ticker_bytes = TICKER.encode_utf8()`. -/
def ticker_bytes (cfg : Config) : Bytes := cfg.TICKER.toList.map Char.toNat

/-- Derived constant `user_token_name`. -/
def user_token_name (cfg : Config) : TokenName := fungible_token_label ++ ticker_bytes cfg

/-- Derived constant `ref_token_name`. -/
def ref_token_name (cfg : Config) : TokenName := reference_token_label ++ ticker_bytes cfg

/-- Quantity `n` of user tokens minted by the transaction. -/
def minted_n (cfg : Config) (tx : Tx (Metadata State)) : Int :=
  get_safe tx.mintedOwn (user_token_name cfg)

/-- Whether the designated seed UTXO is consumed by the transaction. -/
def seed_consumed (cfg : Config) (tx : Tx (Metadata State)) : Bool :=
  tx.inputs.any fun input => decide (input.output_id = cfg.SEED)

/-- The `tx.outputs.find` of `validate_initialization`: first output at the
own address holding exactly one reference token. -/
def find_genesis_output (cfg : Config) (tx : Tx (Metadata State)) :
    Option (TxOutput (Metadata State)) :=
  tx.outputs.find? fun o =>
    decide (o.address = Addr.own ∧ get_safe o.ownTokens (ref_token_name cfg) = 1)

/-- The `tx.outputs.find` of `validate_state_change`: first output at the
own address holding a positive amount of the reference token. -/
def find_ref_output (cfg : Config) (tx : Tx (Metadata State)) :
    Option (TxOutput (Metadata State)) :=
  tx.outputs.find? fun o =>
    decide (o.address = Addr.own ∧ 0 < get_safe o.ownTokens (ref_token_name cfg))

/-- Assert sequence of `validate_initialization` applied to the decoded
genesis metadata. -/
def genesis_checks (cfg : Config) (md : Metadata State) : Except String Unit :=
  req (md.state.supply = 0) "supply not initialized at 0" <|
  req (md.state.type = cfg.TYPE) "unexpected type" <|
  req (md.state.venue = cfg.VENUE) "unexpected venue" <|
  req (md.state.policy = cfg.POLICY) "unexpected policy" <|
  req (md.state.account = cfg.ACCOUNT) "unexpected account" <|
  req (md.state.ticker = cfg.TICKER) "unexpected ticker" <|
  req (md.state.decimals = cfg.DECIMALS) "unexpected decimals" <|
  req (md.state.quorum = (QUORUM cfg : Int)) "unexpected quorum" <|
  req (md.state.seed = cfg.SEED) "unexpected seed" <|
  req (md.version = 1) "unexpected metadata version" <|
  req (md.extra = Cip68Extra.Unused) "unexpected metadata extra values" <|
  .ok ()

/-- Helios `validate_initialization` of the `wrapped_asset` validator. -/
def validate_initialization (cfg : Config) (tx : Tx (Metadata State)) : Except String Unit :=
  req (seed_consumed cfg tx = true) "seed not spent" <|
  match find_genesis_output cfg tx with
  | none => .error "ref utxo not found"
  | some ref_utxo =>
    match ref_utxo.datum with
    | none => .error "invalid metadata"
    | some metadata => genesis_checks cfg metadata

/-- Helios `signed_by_quorum` of the `wrapped_asset` validator:
`n_signers >= QUORUM`. -/
def signed_by_quorum (cfg : Config) (sigs : List PubKeyHash) : Bool :=
  decide (n_signers cfg.ORACLES sigs ≥ QUORUM cfg)

/-- Assert sequence of `validate_state_change` after the prior state
`state0`, the proposed state `state1` and the minted quantity `n` have been
resolved from the transaction. -/
def state_change_checks (cfg : Config) (sigs : List PubKeyHash) (redeemer : Redeemer)
    (state0 state1 : State) (n : Int) : Except String Unit :=
  req (state1.type = cfg.TYPE) "type changed" <|
  req (state1.venue = state0.venue) "venue changed" <|
  req (state1.policy = state0.policy) "policy changed" <|
  req (state1.account = state0.account) "account changed" <|
  req (state1.ticker = state0.ticker) "ticker changed" <|
  req (state1.decimals = state0.decimals) "decimals changed" <|
  req (state1.quorum = (QUORUM cfg : Int)) "quorum changed" <|
  req (state1.oracles = cfg.ORACLES) "oracles changed" <|
  req (state1.seed = cfg.SEED) "seed changed" <|
  req (state1.supply - state0.supply = n) "current token supply not updated correctly" <|
  if 0 < n then
    req (state1.supply ≤ redeemer.reserves) "too many tokens minted" <|
    req (signed_by_quorum cfg sigs = true) "not signed by simple quorum of oracles" <|
    .ok ()
  else .ok ()

/-- Helios `validate_state_change` of the `wrapped_asset` validator. -/
def validate_state_change (cfg : Config) (tx : Tx (Metadata State)) (redeemer : Redeemer)
    (input : TxInput (Metadata State)) : Except String Unit :=
  match input.datum with
  | none => .error "invalid metadata"
  | some md0 =>
    match find_ref_output cfg tx with
    | none => .error "ref output not found"
    | some output =>
      match output.datum with
      | none => .error "invalid metadata"
      | some md1 =>
        state_change_checks cfg tx.signatories redeemer md0.state md1.state (minted_n cfg tx)

/-- Spending branch of `main`. -/
def main_spending (cfg : Config) (tx : Tx (Metadata State)) (redeemer : Redeemer)
    (utxo : TxInput (Metadata State)) : Except String Unit :=
  match utxo.ownTokens with
  | [] => .ok ()
  | (name, _) :: _ =>
    if name = ref_token_name cfg then validate_state_change cfg tx redeemer utxo
    else .error "unexpected token name"

/-- Minting branch of `main` (the `Other` arm of the `MixedArgs` switch). -/
def main_minting (cfg : Config) (tx : Tx (Metadata State)) : Except String Unit :=
  match tx.mintedOwn with
  | [] => .error "empty mint"
  | (name, qty) :: tail =>
    req (tail = []) "only one token kind can be minted or burned" <|
    if name = user_token_name cfg ∧ qty ≠ 0 then
      req (tx.inputs.any (fun input =>
          decide (input.address = Addr.own ∧ 0 < get_safe input.ownTokens (ref_token_name cfg)))
        = true) "ref token not spent" <|
      .ok ()
    else if qty = 1 ∧ name = ref_token_name cfg then
      validate_initialization cfg tx
    else .error "invalid minted tokens"

end Wrapped

namespace OneToOne

open RWA

/-- Registry record state of the `one_to_one_asset` validator. -/
structure State where
  supply : Int
  type : String
  account : Bytes
  name : String
  description : String
  decimals : Int
  ticker : String
  url : String
  logo : String
deriving DecidableEq, Repr

/-- Spending redeemer of the `one_to_one_asset` validator. -/
structure Redeemer where
  reserves : Int

/-- Compile-time `const` parameters of the `one_to_one_asset` validator
(the source instantiates them with `TYPE = "BitcoinNative"`,
`TICKER = "BTC"`, `DECIMALS = 8`, an empty `ACCOUNT`, and placeholder
`SEED_ID` and `ORACLE_KEYS` filled in at compile time). -/
structure Config where
  SEED_ID : TxOutputId
  ORACLE_KEYS : List PubKeyHash
  TYPE : String
  ACCOUNT : Bytes
  TICKER : String
  DECIMALS : Int

/-- Derived constant `NAME = "wrapped " + TICKER`. -/
def NAME (cfg : Config) : String := "wrapped " ++ cfg.TICKER

/-- Derived constant `DESCRIPTION = "wrapped" + TICKER + " operated by PBG"`. -/
def DESCRIPTION (cfg : Config) : String := "wrapped" ++ cfg.TICKER ++ " operated by PBG"

/-- Constant `URL`. -/
def URL : String := "https://www.pbg.io"

/-- Constant `LOGO`. -/
def LOGO : String := "https://assets.pbg.io/usdt_bridge.png"

/-- Derived constant `ticker_bytes = TICKER.encode_utf8()`. -/
def ticker_bytes (cfg : Config) : Bytes := cfg.TICKER.toList.map Char.toNat

/-- Derived constant `user_token_name`. -/
def user_token_name (cfg : Config) : TokenName := fungible_token_label ++ ticker_bytes cfg

/-- Derived constant `ref_token_name`. -/
def ref_token_name (cfg : Config) : TokenName := reference_token_label ++ ticker_bytes cfg

/-- Quantity `n` of user tokens minted by the transaction. -/
def minted_n (cfg : Config) (tx : Tx (Metadata State)) : Int :=
  get_safe tx.mintedOwn (user_token_name cfg)

/-- Whether the designated seed UTXO is consumed by the transaction. -/
def seed_consumed (cfg : Config) (tx : Tx (Metadata State)) : Bool :=
  tx.inputs.any fun input => decide (input.output_id = cfg.SEED_ID)

/-- The genesis metadata that `validate_initialization` compares against:
all compile-time constants with `supply = 0`, version `1` and the unused
extra value. -/
def initialMetadata (cfg : Config) : Metadata State :=
  ⟨⟨0, cfg.TYPE, cfg.ACCOUNT, NAME cfg, DESCRIPTION cfg, cfg.DECIMALS, cfg.TICKER,
    URL, LOGO⟩, 1, Cip68Extra.Unused⟩

/-- The `tx.outputs.find` of `validate_initialization`. -/
def find_genesis_output (cfg : Config) (tx : Tx (Metadata State)) :
    Option (TxOutput (Metadata State)) :=
  tx.outputs.find? fun o =>
    decide (o.address = Addr.own ∧ get_safe o.ownTokens (ref_token_name cfg) = 1)

/-- The `tx.outputs.find` of `validate_state_change`. -/
def find_ref_output (cfg : Config) (tx : Tx (Metadata State)) :
    Option (TxOutput (Metadata State)) :=
  tx.outputs.find? fun o =>
    decide (o.address = Addr.own ∧ 0 < get_safe o.ownTokens (ref_token_name cfg))

/-- Helios `validate_initialization` of the `one_to_one_asset` validator:
the decoded genesis metadata must equal the constant record. -/
def validate_initialization (cfg : Config) (tx : Tx (Metadata State)) : Except String Unit :=
  req (seed_consumed cfg tx = true) "seed UTXO not spent" <|
  match find_genesis_output cfg tx with
  | none => .error "ref utxo not found"
  | some ref_utxo =>
    match ref_utxo.datum with
    | none => .error "invalid metadata"
    | some metadata =>
      req (metadata = initialMetadata cfg) "metadata not initialized correctly" <|
      .ok ()

/-- Helios `signed_by_quorum` of the `one_to_one_asset` validator:
`n_signers > ORACLE_KEYS.length / 2` (strict majority). -/
def signed_by_quorum (cfg : Config) (sigs : List PubKeyHash) : Bool :=
  decide (n_signers cfg.ORACLE_KEYS sigs > cfg.ORACLE_KEYS.length / 2)

/-- Assert sequence of `validate_state_change` after the prior state, the
proposed state and the minted quantity have been resolved. -/
def state_change_checks (cfg : Config) (sigs : List PubKeyHash) (redeemer : Redeemer)
    (state0 state1 : State) (n : Int) : Except String Unit :=
  req (state1.type = state0.type) "type not constant" <|
  req (state1.account = state0.account) "account not constant" <|
  req (state1.ticker = state0.ticker) "metadata ticker not constant" <|
  req (state1.decimals = state0.decimals) "metadata decimals not constant" <|
  req (state1.supply - state0.supply = n) "current token supply not updated correctly" <|
  if 0 < n then
    req (state1.supply ≤ redeemer.reserves) "too many tokens minted" <|
    req (signed_by_quorum cfg sigs = true) "not signed by simple quorum of oracles" <|
    .ok ()
  else .ok ()

/-- Helios `validate_state_change` of the `one_to_one_asset` validator. -/
def validate_state_change (cfg : Config) (tx : Tx (Metadata State)) (redeemer : Redeemer)
    (input : TxInput (Metadata State)) : Except String Unit :=
  match input.datum with
  | none => .error "invalid metadata"
  | some md0 =>
    match find_ref_output cfg tx with
    | none => .error "ref output not found"
    | some output =>
      match output.datum with
      | none => .error "invalid metadata"
      | some md1 =>
        state_change_checks cfg tx.signatories redeemer md0.state md1.state (minted_n cfg tx)

/-- Spending branch of `main`. -/
def main_spending (cfg : Config) (tx : Tx (Metadata State)) (redeemer : Redeemer)
    (utxo : TxInput (Metadata State)) : Except String Unit :=
  match utxo.ownTokens with
  | [] => .ok ()
  | (name, _) :: _ =>
    if name = ref_token_name cfg then validate_state_change cfg tx redeemer utxo
    else .error "unexpected token name"

/-- Minting branch of `main` (the `Other` arm of the `MixedArgs` switch). -/
def main_minting (cfg : Config) (tx : Tx (Metadata State)) : Except String Unit :=
  match tx.mintedOwn with
  | [] => .error "empty mint"
  | (name, qty) :: tail =>
    req (tail = []) "only one token kind can be minted or burned" <|
    if name = user_token_name cfg ∧ qty ≠ 0 then
      req (tx.inputs.any (fun input =>
          decide (input.address = Addr.own ∧ 0 < get_safe input.ownTokens (ref_token_name cfg)))
        = true) "ref token not spent" <|
      .ok ()
    else if qty = 1 ∧ name = ref_token_name cfg then
      validate_initialization cfg tx
    else .error "invalid minted tokens"

end OneToOne

namespace Aggregate

open RWA

/-- Registry record state of the `account_aggregate` validator, including
the two tracking fields of this variant. -/
structure State where
  current_supply : Int
  supply_after_last_mint : Int
  transfer_id_before_last_mint : Bytes
  type : String
  account : Bytes
  name : String
  description : String
  decimals : Int
  ticker : String
  url : String
  logo : String
deriving DecidableEq, Repr

/-- Spending redeemer of the `account_aggregate` validator: the declared
total reserve value, the declared reserve-value change of this batch and
the declared latest transfer id (Helios `Real` fields modelled as `ℚ`). -/
structure Redeemer where
  total_reserves : ℚ
  reserves_change : ℚ
  latest_transfer_id : Bytes

/-- Compile-time `const` parameters of the `account_aggregate` validator
(the source instantiates them with `TYPE = "Private"`, `TICKER = "USDT"`,
`DECIMALS = 6`, `INITIAL_PRICE = 0.001`, an empty `ACCOUNT`, and
placeholder `SEED_ID` and `ORACLE_KEYS` filled in at compile time). -/
structure Config where
  SEED_ID : TxOutputId
  ORACLE_KEYS : List PubKeyHash
  INITIAL_PRICE : ℚ
  TYPE : String
  ACCOUNT : Bytes
  TICKER : String
  DECIMALS : Int

/-- Derived constant `NAME = TICKER + " RWA"`. -/
def NAME (cfg : Config) : String := cfg.TICKER ++ " RWA"

/-- Derived constant `DESCRIPTION = TICKER + " RWA operated by PBG"`. -/
def DESCRIPTION (cfg : Config) : String := cfg.TICKER ++ " RWA operated by PBG"

/-- Constant `URL`. -/
def URL : String := "https://www.pbg.io"

/-- Constant `LOGO`. -/
def LOGO : String := "https://assets.pbg.io/usdt_bridge.png"

/-- Derived constant `ticker_bytes = TICKER.encode_utf8()`. -/
def ticker_bytes (cfg : Config) : Bytes := cfg.TICKER.toList.map Char.toNat

/-- Derived constant `user_token_name`. -/
def user_token_name (cfg : Config) : TokenName := fungible_token_label ++ ticker_bytes cfg

/-- Derived constant `ref_token_name`. -/
def ref_token_name (cfg : Config) : TokenName := reference_token_label ++ ticker_bytes cfg

/-- Quantity `n` of user tokens minted by the transaction. -/
def minted_n (cfg : Config) (tx : Tx (Metadata State)) : Int :=
  get_safe tx.mintedOwn (user_token_name cfg)

/-- Whether the designated seed UTXO is consumed by the transaction. -/
def seed_consumed (cfg : Config) (tx : Tx (Metadata State)) : Bool :=
  tx.inputs.any fun input => decide (input.output_id = cfg.SEED_ID)

/-- The genesis metadata that `validate_initialization` compares against:
all compile-time constants with `current_supply = 0`, both tracking fields
at their zero values, version `1` and the unused extra value. -/
def initialMetadata (cfg : Config) : Metadata State :=
  ⟨⟨0, 0, [], cfg.TYPE, cfg.ACCOUNT, NAME cfg, DESCRIPTION cfg, cfg.DECIMALS, cfg.TICKER,
    URL, LOGO⟩, 1, Cip68Extra.Unused⟩

/-- The `tx.outputs.find` of `validate_initialization`. -/
def find_genesis_output (cfg : Config) (tx : Tx (Metadata State)) :
    Option (TxOutput (Metadata State)) :=
  tx.outputs.find? fun o =>
    decide (o.address = Addr.own ∧ get_safe o.ownTokens (ref_token_name cfg) = 1)

/-- The `tx.outputs.find` of `validate_state_change`. -/
def find_ref_output (cfg : Config) (tx : Tx (Metadata State)) :
    Option (TxOutput (Metadata State)) :=
  tx.outputs.find? fun o =>
    decide (o.address = Addr.own ∧ 0 < get_safe o.ownTokens (ref_token_name cfg))

/-- Helios `validate_initialization` of the `account_aggregate` validator. -/
def validate_initialization (cfg : Config) (tx : Tx (Metadata State)) : Except String Unit :=
  req (seed_consumed cfg tx = true) "seed UTXO not spent" <|
  match find_genesis_output cfg tx with
  | none => .error "ref utxo not found"
  | some ref_utxo =>
    match ref_utxo.datum with
    | none => .error "invalid metadata"
    | some metadata =>
      req (metadata = initialMetadata cfg) "metadata not initialized correctly" <|
      .ok ()

/-- Helios `signed_by_quorum` of the `account_aggregate` validator:
`n_signers > ORACLE_KEYS.length / 2` (strict majority). -/
def signed_by_quorum (cfg : Config) (sigs : List PubKeyHash) : Bool :=
  decide (n_signers cfg.ORACLE_KEYS sigs > cfg.ORACLE_KEYS.length / 2)

/-- Helios `calc_token_price`: the configured initial price while either
supply baseline is zero, otherwise the smaller of the price implied by the
reserves before this batch at the supply after the last mint and the price
implied by the current reserves at the current supply. -/
def calc_token_price (cfg : Config) (R Delta : ℚ)
    (current_supply supply_after_last_mint : Int) : ℚ :=
  if current_supply = 0 ∨ supply_after_last_mint = 0 then
    cfg.INITIAL_PRICE
  else
    let p_last := (R - Delta) / (supply_after_last_mint : ℚ)
    let p_curr := R / (current_supply : ℚ)
    if p_last < p_curr then p_last else p_curr

/-- Assert sequence of `validate_state_change` after the prior state, the
proposed state and the minted quantity have been resolved.  In the mint
branch the source asserts `N1 * p <= R` with `N1` the proposed
`current_supply` and `p = calc_token_price(R, Delta, N0, N_last)`. -/
def state_change_checks (cfg : Config) (sigs : List PubKeyHash) (redeemer : Redeemer)
    (state0 state1 : State) (n : Int) : Except String Unit :=
  req (state1.type = state0.type) "type not constant" <|
  req (state1.account = state0.account) "account not constant" <|
  req (state1.ticker = state0.ticker) "metadata ticker not constant" <|
  req (state1.decimals = state0.decimals) "metadata decimals not constant" <|
  req (state1.current_supply - state0.current_supply = n)
      "current token supply not updated correctly" <|
  if 0 < n then
    req ((state1.current_supply : ℚ) * calc_token_price cfg redeemer.total_reserves
          redeemer.reserves_change state0.current_supply state0.supply_after_last_mint
        ≤ redeemer.total_reserves) "too many tokens minted" <|
    req (state1.transfer_id_before_last_mint = redeemer.latest_transfer_id)
        "transfer_id_before_last_mint not updated correctly" <|
    req (state1.supply_after_last_mint = state1.current_supply)
        "supply_after_last_mint not updated correctly" <|
    req (signed_by_quorum cfg sigs = true) "not signed by simple quorum of oracles" <|
    .ok ()
  else
    req (state1.supply_after_last_mint = state0.supply_after_last_mint)
        "supply_after_last_mint cannot change during burn" <|
    req (state1.transfer_id_before_last_mint = state0.transfer_id_before_last_mint)
        "transfer_id_before_last_mint cannot change during burn" <|
    .ok ()

/-- Helios `validate_state_change` of the `account_aggregate` validator. -/
def validate_state_change (cfg : Config) (tx : Tx (Metadata State)) (redeemer : Redeemer)
    (input : TxInput (Metadata State)) : Except String Unit :=
  match input.datum with
  | none => .error "invalid metadata"
  | some md0 =>
    match find_ref_output cfg tx with
    | none => .error "ref output not found"
    | some output =>
      match output.datum with
      | none => .error "invalid metadata"
      | some md1 =>
        state_change_checks cfg tx.signatories redeemer md0.state md1.state (minted_n cfg tx)

/-- Spending branch of `main`. -/
def main_spending (cfg : Config) (tx : Tx (Metadata State)) (redeemer : Redeemer)
    (utxo : TxInput (Metadata State)) : Except String Unit :=
  match utxo.ownTokens with
  | [] => .ok ()
  | (name, _) :: _ =>
    if name = ref_token_name cfg then validate_state_change cfg tx redeemer utxo
    else .error "unexpected token name"

/-- Minting branch of `main` (the `Other` arm of the `MixedArgs` switch). -/
def main_minting (cfg : Config) (tx : Tx (Metadata State)) : Except String Unit :=
  match tx.mintedOwn with
  | [] => .error "empty mint"
  | (name, qty) :: tail =>
    req (tail = []) "only one token kind can be minted or burned" <|
    if name = user_token_name cfg ∧ qty ≠ 0 then
      req (tx.inputs.any (fun input =>
          decide (input.address = Addr.own ∧ 0 < get_safe input.ownTokens (ref_token_name cfg)))
        = true) "ref token not spent" <|
      .ok ()
    else if qty = 1 ∧ name = ref_token_name cfg then
      validate_initialization cfg tx
    else .error "invalid minted tokens"

end Aggregate

namespace Ex

open RWA

/-- Seed output reference shared by the example configurations. -/
def seed0 : TxOutputId := ⟨[], 0⟩

/-- Example wrapped-variant configuration with an empty oracle list. -/
def cfgW : Wrapped.Config :=
  ⟨"WrappedAsset", "Bitcoin", "Native", "ACCOUNT", "BTC", 8, [], seed0⟩

/-- Example wrapped-variant configuration with two oracles. -/
def cfgW5 : Wrapped.Config :=
  ⟨"WrappedAsset", "Bitcoin", "Native", "ACCOUNT", "BTC", 8, [1, 2], seed0⟩

/-- Example wrapped-variant configuration with one oracle. -/
def cfgW7 : Wrapped.Config :=
  ⟨"WrappedAsset", "Bitcoin", "Native", "ACCOUNT", "BTC", 8, [1], seed0⟩

/-- A prior wrapped record whose `type` field deviates from the compile-time
constant. -/
def sW0 : Wrapped.State :=
  ⟨100, "evil", "Bitcoin", "Native", "ACCOUNT", "BTC", "nm", "ds", 8, "u", "l", 0, [], seed0⟩

/-- The proposed wrapped record: identical to `sW0` except that `type` is
the compile-time constant. -/
def sW1 : Wrapped.State :=
  ⟨100, "WrappedAsset", "Bitcoin", "Native", "ACCOUNT", "BTC", "nm", "ds", 8, "u", "l", 0, [], seed0⟩

/-- Spent registry input carrying `sW0`. -/
def utxoW : TxInput (Metadata Wrapped.State) :=
  ⟨⟨[1], 0⟩, Addr.own, [(Wrapped.ref_token_name cfgW, 1)], some ⟨sW0, 1, Cip68Extra.Unused⟩⟩

/-- Transaction rewriting the record to `sW1` without minting anything. -/
def txW : Tx (Metadata Wrapped.State) :=
  ⟨[utxoW], [⟨Addr.own, [(Wrapped.ref_token_name cfgW, 1)], some ⟨sW1, 1, Cip68Extra.Unused⟩⟩],
    [], []⟩

/-- Wrapped redeemer used by the display-only example. -/
def rdmW : Wrapped.Redeemer := ⟨0⟩

/-- Genesis wrapped record for `cfgW7` whose `oracles` field deviates from
the configured `ORACLES = [1]`. -/
def sG : Wrapped.State :=
  ⟨0, "WrappedAsset", "Bitcoin", "Native", "ACCOUNT", "BTC", "nm", "ds", 8, "u", "l", 1, [2], seed0⟩

/-- Genesis transaction consuming the seed and producing `sG`. -/
def txG : Tx (Metadata Wrapped.State) :=
  ⟨[⟨seed0, Addr.other 0, [], none⟩],
    [⟨Addr.own, [(Wrapped.ref_token_name cfgW7, 1)], some ⟨sG, 1, Cip68Extra.Unused⟩⟩],
    [(Wrapped.ref_token_name cfgW7, 1)], []⟩

/-- Example one-to-one configuration. -/
def cfgO : OneToOne.Config := ⟨seed0, [3], "BitcoinNative", [], "BTC", 8⟩

/-- User-token mint transaction of the one-to-one variant whose only listed
input holds a reference token at the own address. -/
def txO10 : Tx (Metadata OneToOne.State) :=
  ⟨[⟨⟨[2], 0⟩, Addr.own, [(OneToOne.ref_token_name cfgO, 1)], none⟩], [],
    [(OneToOne.user_token_name cfgO, 5)], []⟩

/-- Example aggregate configuration with one oracle key. -/
def cfgA : Aggregate.Config := ⟨seed0, [7], 1/1000, "Private", [], "USDT", 6⟩

/-- Prior aggregate record: current supply 1000, supply after last mint
1000, transfer id `[9]`. -/
def sA0 : Aggregate.State :=
  ⟨1000, 1000, [9], "Private", [], "USDT RWA", "USDT RWA operated by PBG", 6, "USDT",
    "https://www.pbg.io", "https://assets.pbg.io/usdt_bridge.png"⟩

/-- Proposed record of the accepted 90-unit mint. -/
def sA1mint : Aggregate.State :=
  ⟨1090, 1090, [7], "Private", [], "USDT RWA", "USDT RWA operated by PBG", 6, "USDT",
    "https://www.pbg.io", "https://assets.pbg.io/usdt_bridge.png"⟩

/-- Proposed record of the rejected 150-unit mint. -/
def sA1over : Aggregate.State :=
  ⟨1150, 1150, [7], "Private", [], "USDT RWA", "USDT RWA operated by PBG", 6, "USDT",
    "https://www.pbg.io", "https://assets.pbg.io/usdt_bridge.png"⟩

/-- Proposed record of the accepted 50-unit burn. -/
def sA1burn : Aggregate.State :=
  ⟨950, 1000, [9], "Private", [], "USDT RWA", "USDT RWA operated by PBG", 6, "USDT",
    "https://www.pbg.io", "https://assets.pbg.io/usdt_bridge.png"⟩

/-- Spent aggregate registry input carrying `sA0`. -/
def utxoA : TxInput (Metadata Aggregate.State) :=
  ⟨⟨[3], 0⟩, Addr.own, [(Aggregate.ref_token_name cfgA, 1)], some ⟨sA0, 1, Cip68Extra.Unused⟩⟩

/-- Redeemer of the mint examples: declared reserves 1,100,000, declared
change 100,000, latest transfer id `[7]`. -/
def rdmMint : Aggregate.Redeemer := ⟨1100000, 100000, [7]⟩

/-- Redeemer of the burn example. -/
def rdmBurn : Aggregate.Redeemer := ⟨0, 0, []⟩

/-- Accepted 90-unit mint transaction, signed by the single oracle. -/
def txMint : Tx (Metadata Aggregate.State) :=
  ⟨[utxoA], [⟨Addr.own, [(Aggregate.ref_token_name cfgA, 1)], some ⟨sA1mint, 1, Cip68Extra.Unused⟩⟩],
    [(Aggregate.user_token_name cfgA, 90)], [7]⟩

/-- Rejected 150-unit mint transaction, signed by the single oracle. -/
def txOver : Tx (Metadata Aggregate.State) :=
  ⟨[utxoA], [⟨Addr.own, [(Aggregate.ref_token_name cfgA, 1)], some ⟨sA1over, 1, Cip68Extra.Unused⟩⟩],
    [(Aggregate.user_token_name cfgA, 150)], [7]⟩

/-- Accepted 50-unit burn transaction with no signatures at all. -/
def txBurn : Tx (Metadata Aggregate.State) :=
  ⟨[utxoA], [⟨Addr.own, [(Aggregate.ref_token_name cfgA, 1)], some ⟨sA1burn, 1, Cip68Extra.Unused⟩⟩],
    [(Aggregate.user_token_name cfgA, -50)], []⟩

end Ex

open RWA

@[simp] theorem req_ok (cond : Prop) [Decidable cond] (msg : String)
    (rest : Except String Unit) :
    req cond msg rest = .ok () ↔ cond ∧ rest = .ok () := by
  unfold req
  split_ifs with h <;> simp [h]

theorem req_error (cond : Prop) [Decidable cond] (msg m : String)
    (rest : Except String Unit) :
    req cond msg rest = .error m ↔ ((¬ cond ∧ msg = m) ∨ (cond ∧ rest = .error m)) := by
  unfold req
  split_ifs with h <;> simp [h]

theorem foldl_n_signers_aux (sigs : List PubKeyHash) (keys : List PubKeyHash) (acc : Nat) :
    keys.foldl (fun n key => n + (if sigs.contains key then 1 else 0)) acc
      = acc + (keys.filter (fun key => sigs.contains key)).length := by
  induction keys generalizing acc with
  | nil => simp
  | cons k rest ih =>
    cases hc : sigs.contains k <;>
      simp only [List.foldl_cons, List.filter_cons, hc, if_true, if_false,
        Bool.false_eq_true, List.length_cons, ih] <;> omega

theorem n_signers_eq_filter_length (oracle_keys sigs : List PubKeyHash) :
    n_signers oracle_keys sigs
      = (oracle_keys.filter (fun key => sigs.contains key)).length := by
  rw [n_signers, foldl_n_signers_aux]
  omega

theorem wrapped_ref_ne_user (cfg : Wrapped.Config) :
    Wrapped.ref_token_name cfg ≠ Wrapped.user_token_name cfg := by
  simp [Wrapped.ref_token_name, Wrapped.user_token_name, reference_token_label,
    fungible_token_label]

theorem one_to_one_ref_ne_user (cfg : OneToOne.Config) :
    OneToOne.ref_token_name cfg ≠ OneToOne.user_token_name cfg := by
  simp [OneToOne.ref_token_name, OneToOne.user_token_name, reference_token_label,
    fungible_token_label]

theorem aggregate_ref_ne_user (cfg : Aggregate.Config) :
    Aggregate.ref_token_name cfg ≠ Aggregate.user_token_name cfg := by
  simp [Aggregate.ref_token_name, Aggregate.user_token_name, reference_token_label,
    fungible_token_label]

theorem wrapped_state_change_ok_iff (cfg : Wrapped.Config) (sigs : List PubKeyHash)
    (redeemer : Wrapped.Redeemer) (state0 state1 : Wrapped.State) (n : Int) :
    Wrapped.state_change_checks cfg sigs redeemer state0 state1 n = .ok () ↔
      (state1.type = cfg.TYPE ∧ state1.venue = state0.venue ∧
       state1.policy = state0.policy ∧ state1.account = state0.account ∧
       state1.ticker = state0.ticker ∧ state1.decimals = state0.decimals ∧
       state1.quorum = (Wrapped.QUORUM cfg : Int) ∧ state1.oracles = cfg.ORACLES ∧
       state1.seed = cfg.SEED ∧ state1.supply - state0.supply = n ∧
       (0 < n → state1.supply ≤ redeemer.reserves ∧
         Wrapped.signed_by_quorum cfg sigs = true)) := by
  unfold Wrapped.state_change_checks
  by_cases hn : 0 < n <;> simp [hn]

theorem one_to_one_state_change_ok_iff (cfg : OneToOne.Config) (sigs : List PubKeyHash)
    (redeemer : OneToOne.Redeemer) (state0 state1 : OneToOne.State) (n : Int) :
    OneToOne.state_change_checks cfg sigs redeemer state0 state1 n = .ok () ↔
      (state1.type = state0.type ∧ state1.account = state0.account ∧
       state1.ticker = state0.ticker ∧ state1.decimals = state0.decimals ∧
       state1.supply - state0.supply = n ∧
       (0 < n → state1.supply ≤ redeemer.reserves ∧
         OneToOne.signed_by_quorum cfg sigs = true)) := by
  unfold OneToOne.state_change_checks
  by_cases hn : 0 < n <;> simp [hn]

theorem aggregate_state_change_ok_iff (cfg : Aggregate.Config) (sigs : List PubKeyHash)
    (redeemer : Aggregate.Redeemer) (state0 state1 : Aggregate.State) (n : Int) :
    Aggregate.state_change_checks cfg sigs redeemer state0 state1 n = .ok () ↔
      (state1.type = state0.type ∧ state1.account = state0.account ∧
       state1.ticker = state0.ticker ∧ state1.decimals = state0.decimals ∧
       state1.current_supply - state0.current_supply = n ∧
       (0 < n →
         (state1.current_supply : ℚ) * Aggregate.calc_token_price cfg redeemer.total_reserves
             redeemer.reserves_change state0.current_supply state0.supply_after_last_mint
           ≤ redeemer.total_reserves ∧
         state1.transfer_id_before_last_mint = redeemer.latest_transfer_id ∧
         state1.supply_after_last_mint = state1.current_supply ∧
         Aggregate.signed_by_quorum cfg sigs = true) ∧
       (¬ 0 < n →
         state1.supply_after_last_mint = state0.supply_after_last_mint ∧
         state1.transfer_id_before_last_mint = state0.transfer_id_before_last_mint)) := by
  unfold Aggregate.state_change_checks
  by_cases hn : 0 < n <;> simp [hn]

theorem wrapped_checks_signer_indep (cfg : Wrapped.Config) (sigs sigs' : List PubKeyHash)
    (redeemer : Wrapped.Redeemer) (state0 state1 : Wrapped.State) (n : Int) (hn : n ≤ 0) :
    Wrapped.state_change_checks cfg sigs redeemer state0 state1 n
      = Wrapped.state_change_checks cfg sigs' redeemer state0 state1 n := by
  unfold Wrapped.state_change_checks
  rw [if_neg (show ¬ 0 < n by omega), if_neg (show ¬ 0 < n by omega)]

theorem one_to_one_checks_signer_indep (cfg : OneToOne.Config) (sigs sigs' : List PubKeyHash)
    (redeemer : OneToOne.Redeemer) (state0 state1 : OneToOne.State) (n : Int) (hn : n ≤ 0) :
    OneToOne.state_change_checks cfg sigs redeemer state0 state1 n
      = OneToOne.state_change_checks cfg sigs' redeemer state0 state1 n := by
  unfold OneToOne.state_change_checks
  rw [if_neg (show ¬ 0 < n by omega), if_neg (show ¬ 0 < n by omega)]

theorem aggregate_checks_signer_indep (cfg : Aggregate.Config) (sigs sigs' : List PubKeyHash)
    (redeemer : Aggregate.Redeemer) (state0 state1 : Aggregate.State) (n : Int) (hn : n ≤ 0) :
    Aggregate.state_change_checks cfg sigs redeemer state0 state1 n
      = Aggregate.state_change_checks cfg sigs' redeemer state0 state1 n := by
  unfold Aggregate.state_change_checks
  rw [if_neg (show ¬ 0 < n by omega), if_neg (show ¬ 0 < n by omega)]

theorem aggregate_checks_price_error (cfg : Aggregate.Config) (sigs : List PubKeyHash)
    (redeemer : Aggregate.Redeemer) (state0 state1 : Aggregate.State) (n : Int)
    (h : Aggregate.state_change_checks cfg sigs redeemer state0 state1 n
      = .error "too many tokens minted") :
    0 < n ∧
      ¬ (state1.current_supply : ℚ) * Aggregate.calc_token_price cfg redeemer.total_reserves
          redeemer.reserves_change state0.current_supply state0.supply_after_last_mint
        ≤ redeemer.total_reserves := by
  unfold Aggregate.state_change_checks at h
  by_cases hn : 0 < n
  · rw [if_pos hn] at h
    refine ⟨hn, ?_⟩
    simp only [req_error] at h
    simp at h
    exact not_le.mpr h.2.2.2.2.2
  · rw [if_neg hn] at h
    simp only [req_error] at h
    simp at h

theorem wrapped_init_ok_iff (cfg : Wrapped.Config) (tx : Tx (Metadata Wrapped.State)) :
    Wrapped.validate_initialization cfg tx = .ok () ↔
      (Wrapped.seed_consumed cfg tx = true ∧
       ∃ o md, Wrapped.find_genesis_output cfg tx = some o ∧ o.datum = some md ∧
         md.state.supply = 0 ∧ md.state.type = cfg.TYPE ∧ md.state.venue = cfg.VENUE ∧
         md.state.policy = cfg.POLICY ∧ md.state.account = cfg.ACCOUNT ∧
         md.state.ticker = cfg.TICKER ∧ md.state.decimals = cfg.DECIMALS ∧
         md.state.quorum = (Wrapped.QUORUM cfg : Int) ∧ md.state.seed = cfg.SEED ∧
         md.version = 1 ∧ md.extra = Cip68Extra.Unused) := by
  unfold Wrapped.validate_initialization
  cases hf : Wrapped.find_genesis_output cfg tx with
  | none => simp [hf]
  | some o =>
    cases hd : o.datum with
    | none => simp [hf, hd]
    | some md => simp [hf, hd, Wrapped.genesis_checks, and_assoc]

theorem one_to_one_init_ok_iff (cfg : OneToOne.Config) (tx : Tx (Metadata OneToOne.State)) :
    OneToOne.validate_initialization cfg tx = .ok () ↔
      (OneToOne.seed_consumed cfg tx = true ∧
       ∃ o, OneToOne.find_genesis_output cfg tx = some o ∧
         o.datum = some (OneToOne.initialMetadata cfg)) := by
  unfold OneToOne.validate_initialization
  cases hf : OneToOne.find_genesis_output cfg tx with
  | none => simp [hf]
  | some o =>
    cases hd : o.datum with
    | none => simp [hf, hd]
    | some md => simp [hf, hd]

theorem aggregate_init_ok_iff (cfg : Aggregate.Config) (tx : Tx (Metadata Aggregate.State)) :
    Aggregate.validate_initialization cfg tx = .ok () ↔
      (Aggregate.seed_consumed cfg tx = true ∧
       ∃ o, Aggregate.find_genesis_output cfg tx = some o ∧
         o.datum = some (Aggregate.initialMetadata cfg)) := by
  unfold Aggregate.validate_initialization
  cases hf : Aggregate.find_genesis_output cfg tx with
  | none => simp [hf]
  | some o =>
    cases hd : o.datum with
    | none => simp [hf, hd]
    | some md => simp [hf, hd]

theorem ex_wrapped_ok :
    Wrapped.validate_state_change Ex.cfgW Ex.txW Ex.rdmW Ex.utxoW = .ok () := rfl

theorem ex_genesis_ok :
    Wrapped.validate_initialization Ex.cfgW7 Ex.txG = .ok () := rfl

theorem ex_burn_ok :
    Aggregate.validate_state_change Ex.cfgA Ex.txBurn Ex.rdmBurn Ex.utxoA = .ok () := rfl

theorem ex_one_to_one_mint_ok :
    OneToOne.main_minting Ex.cfgO Ex.txO10 = .ok () := rfl

theorem ex_calc_price :
    Aggregate.calc_token_price Ex.cfgA 1100000 100000 1000 1000 = 1000 := by
  norm_num [Aggregate.calc_token_price]

theorem ex_mint_ok :
    Aggregate.validate_state_change Ex.cfgA Ex.txMint Ex.rdmMint Ex.utxoA = .ok () := by
  show Aggregate.state_change_checks Ex.cfgA [7] Ex.rdmMint Ex.sA0 Ex.sA1mint 90 = .ok ()
  rw [aggregate_state_change_ok_iff]
  refine ⟨rfl, rfl, rfl, rfl, by decide,
    fun _ => ⟨?_, rfl, rfl, by decide⟩,
    fun h => absurd (show (0:Int) < 90 by decide) h⟩
  simp only [Ex.sA1mint, Ex.sA0, Ex.rdmMint]
  norm_num [Aggregate.calc_token_price]

theorem ex_over_error :
    Aggregate.validate_state_change Ex.cfgA Ex.txOver Ex.rdmMint Ex.utxoA
      = .error "too many tokens minted" := by
  show Aggregate.state_change_checks Ex.cfgA [7] Ex.rdmMint Ex.sA0 Ex.sA1over 150
    = .error "too many tokens minted"
  unfold Aggregate.state_change_checks
  refine (req_error _ _ _ _).mpr (Or.inr ⟨rfl, ?_⟩)
  refine (req_error _ _ _ _).mpr (Or.inr ⟨rfl, ?_⟩)
  refine (req_error _ _ _ _).mpr (Or.inr ⟨rfl, ?_⟩)
  refine (req_error _ _ _ _).mpr (Or.inr ⟨rfl, ?_⟩)
  refine (req_error _ _ _ _).mpr (Or.inr ⟨by decide, ?_⟩)
  rw [if_pos (show (0:Int) < 150 by decide)]
  refine (req_error _ _ _ _).mpr (Or.inl ⟨?_, rfl⟩)
  simp only [Ex.sA1over, Ex.sA0, Ex.rdmMint]
  norm_num [Aggregate.calc_token_price]

/-- C1 counterexample: an aggregate state change minting n = 150 units with
R = 1,100,000, Delta = 100,000, N0 = 1000 and Nlast = 1000 has
maxPrice = 1000 and n * maxPrice = 150,000 <= R, yet the price-bound check
rejects it: the source bounds N1 * maxPrice = 1,150,000, not
n * maxPrice. -/
theorem claim1_counterexample :
    Aggregate.validate_state_change Ex.cfgA Ex.txOver Ex.rdmMint Ex.utxoA
      = .error "too many tokens minted" ∧
    Aggregate.minted_n Ex.cfgA Ex.txOver = 150 ∧
    (150 : ℚ) * Aggregate.calc_token_price Ex.cfgA 1100000 100000 1000 1000 ≤ 1100000 :=
  ⟨ex_over_error, by decide, by rw [ex_calc_price]; norm_num⟩

/-- C1 (amended): for the aggregate variant with a positive mint, the
price-bound check passes exactly when N1 * maxPrice(R, Delta, N0, Nlast)
<= R with N1 the proposed current supply: an accepted transition satisfies
that bound, and a transition satisfying it is never rejected with the
price-bound failure. -/
theorem claim1_price_bound (cfg : Aggregate.Config) (tx : Tx (Metadata Aggregate.State))
    (redeemer : Aggregate.Redeemer) (utxo : TxInput (Metadata Aggregate.State))
    (md0 md1 : Metadata Aggregate.State) (output : TxOutput (Metadata Aggregate.State))
    (h0 : utxo.datum = some md0) (hf : Aggregate.find_ref_output cfg tx = some output)
    (h1 : output.datum = some md1) (hn : 0 < Aggregate.minted_n cfg tx) :
    (Aggregate.validate_state_change cfg tx redeemer utxo = .ok () →
      (md1.state.current_supply : ℚ) * Aggregate.calc_token_price cfg redeemer.total_reserves
          redeemer.reserves_change md0.state.current_supply md0.state.supply_after_last_mint
        ≤ redeemer.total_reserves) ∧
    ((md1.state.current_supply : ℚ) * Aggregate.calc_token_price cfg redeemer.total_reserves
          redeemer.reserves_change md0.state.current_supply md0.state.supply_after_last_mint
        ≤ redeemer.total_reserves →
      Aggregate.validate_state_change cfg tx redeemer utxo ≠ .error "too many tokens minted") := by
  unfold Aggregate.validate_state_change
  simp only [h0, hf, h1]
  constructor
  · intro hok
    exact (((aggregate_state_change_ok_iff _ _ _ _ _ _).mp hok).2.2.2.2.2.1 hn).1
  · intro hle hcontra
    exact absurd hle (aggregate_checks_price_error _ _ _ _ _ _ hcontra).2

/-- Witness for C1 at the accepted 90-unit mint example. -/
theorem claim1_price_bound_witness :
    (Aggregate.validate_state_change Ex.cfgA Ex.txMint Ex.rdmMint Ex.utxoA = .ok () →
      (Ex.sA1mint.current_supply : ℚ) * Aggregate.calc_token_price Ex.cfgA
          Ex.rdmMint.total_reserves Ex.rdmMint.reserves_change Ex.sA0.current_supply
          Ex.sA0.supply_after_last_mint ≤ Ex.rdmMint.total_reserves) ∧
    ((Ex.sA1mint.current_supply : ℚ) * Aggregate.calc_token_price Ex.cfgA
          Ex.rdmMint.total_reserves Ex.rdmMint.reserves_change Ex.sA0.current_supply
          Ex.sA0.supply_after_last_mint ≤ Ex.rdmMint.total_reserves →
      Aggregate.validate_state_change Ex.cfgA Ex.txMint Ex.rdmMint Ex.utxoA
        ≠ .error "too many tokens minted") :=
  claim1_price_bound Ex.cfgA Ex.txMint Ex.rdmMint Ex.utxoA ⟨Ex.sA0, 1, Cip68Extra.Unused⟩
    ⟨Ex.sA1mint, 1, Cip68Extra.Unused⟩
    ⟨Addr.own, [(Aggregate.ref_token_name Ex.cfgA, 1)], some ⟨Ex.sA1mint, 1, Cip68Extra.Unused⟩⟩
    rfl rfl rfl (by decide)

/-- C2: calc_token_price of the aggregate variant returns the configured
initial price whenever the current supply or the supply after the last
mint is zero (including the post-initialization case Nlast = 0 with
N0 > 0), and otherwise the smaller of (R - Delta)/Nlast and R/N0. -/
theorem claim2_calc_token_price (cfg : Aggregate.Config) (R Delta : ℚ) (N0 Nlast : Int) :
    ((N0 = 0 ∨ Nlast = 0) →
      Aggregate.calc_token_price cfg R Delta N0 Nlast = cfg.INITIAL_PRICE) ∧
    (N0 ≠ 0 → Nlast ≠ 0 →
      Aggregate.calc_token_price cfg R Delta N0 Nlast
        = min ((R - Delta) / (Nlast : ℚ)) (R / (N0 : ℚ))) := by
  constructor
  · intro h
    unfold Aggregate.calc_token_price
    rw [if_pos h]
  · intro h0 hl
    unfold Aggregate.calc_token_price
    rw [if_neg (by tauto)]
    rcases lt_or_ge ((R - Delta) / (Nlast : ℚ)) (R / (N0 : ℚ)) with hc | hc
    · rw [if_pos hc]
      exact (min_eq_left hc.le).symm
    · rw [if_neg (not_lt.mpr hc)]
      exact (min_eq_right hc).symm

/-- Witness for C2: the initial-price branch at N0 = 0 and the minimum
branch at the scenario-C numbers. -/
theorem claim2_witness :
    Aggregate.calc_token_price Ex.cfgA 10 2 0 5 = Ex.cfgA.INITIAL_PRICE ∧
    Aggregate.calc_token_price Ex.cfgA 1100000 100000 1000 1000
      = min ((1100000 - 100000) / ((1000 : Int) : ℚ)) (1100000 / ((1000 : Int) : ℚ)) :=
  ⟨(claim2_calc_token_price Ex.cfgA 10 2 0 5).1 (Or.inl rfl),
   (claim2_calc_token_price Ex.cfgA 1100000 100000 1000 1000).2 (by decide) (by decide)⟩

/-- C3: in every accepted state change of each of the three variants, the
proposed supply minus the prior supply equals exactly the minted quantity
of the user token class (so any proposal violating the equality is
rejected). -/
theorem claim3_supply_conservation :
    (∀ (cfg : Wrapped.Config) (tx : Tx (Metadata Wrapped.State)) (redeemer : Wrapped.Redeemer)
       (utxo : TxInput (Metadata Wrapped.State)) (md0 md1 : Metadata Wrapped.State)
       (output : TxOutput (Metadata Wrapped.State)),
       utxo.datum = some md0 → Wrapped.find_ref_output cfg tx = some output →
       output.datum = some md1 →
       Wrapped.validate_state_change cfg tx redeemer utxo = .ok () →
       md1.state.supply - md0.state.supply = Wrapped.minted_n cfg tx) ∧
    (∀ (cfg : OneToOne.Config) (tx : Tx (Metadata OneToOne.State)) (redeemer : OneToOne.Redeemer)
       (utxo : TxInput (Metadata OneToOne.State)) (md0 md1 : Metadata OneToOne.State)
       (output : TxOutput (Metadata OneToOne.State)),
       utxo.datum = some md0 → OneToOne.find_ref_output cfg tx = some output →
       output.datum = some md1 →
       OneToOne.validate_state_change cfg tx redeemer utxo = .ok () →
       md1.state.supply - md0.state.supply = OneToOne.minted_n cfg tx) ∧
    (∀ (cfg : Aggregate.Config) (tx : Tx (Metadata Aggregate.State)) (redeemer : Aggregate.Redeemer)
       (utxo : TxInput (Metadata Aggregate.State)) (md0 md1 : Metadata Aggregate.State)
       (output : TxOutput (Metadata Aggregate.State)),
       utxo.datum = some md0 → Aggregate.find_ref_output cfg tx = some output →
       output.datum = some md1 →
       Aggregate.validate_state_change cfg tx redeemer utxo = .ok () →
       md1.state.current_supply - md0.state.current_supply = Aggregate.minted_n cfg tx) := by
  refine ⟨?_, ?_, ?_⟩
  · intro cfg tx redeemer utxo md0 md1 output h0 hf h1 hok
    simp only [Wrapped.validate_state_change, h0, hf, h1] at hok
    exact ((wrapped_state_change_ok_iff _ _ _ _ _ _).mp hok).2.2.2.2.2.2.2.2.2.1
  · intro cfg tx redeemer utxo md0 md1 output h0 hf h1 hok
    simp only [OneToOne.validate_state_change, h0, hf, h1] at hok
    exact ((one_to_one_state_change_ok_iff _ _ _ _ _ _).mp hok).2.2.2.2.1
  · intro cfg tx redeemer utxo md0 md1 output h0 hf h1 hok
    simp only [Aggregate.validate_state_change, h0, hf, h1] at hok
    exact ((aggregate_state_change_ok_iff _ _ _ _ _ _).mp hok).2.2.2.2.1

/-- Witness for C3 at the accepted display-only wrapped transition. -/
theorem claim3_witness :
    Ex.sW1.supply - Ex.sW0.supply = Wrapped.minted_n Ex.cfgW Ex.txW :=
  claim3_supply_conservation.1 Ex.cfgW Ex.txW Ex.rdmW Ex.utxoW ⟨Ex.sW0, 1, Cip68Extra.Unused⟩
    ⟨Ex.sW1, 1, Cip68Extra.Unused⟩
    ⟨Addr.own, [(Wrapped.ref_token_name Ex.cfgW, 1)], some ⟨Ex.sW1, 1, Cip68Extra.Unused⟩⟩
    rfl rfl rfl ex_wrapped_ok

/-- C4 counterexample: the wrapped variant accepts a transition whose
proposed record differs from the prior record in the identity field
`type` (prior "evil", proposed the constant), because the source compares
`type`, `quorum`, `oracles` and `seed` against compile-time constants
instead of the prior record. -/
theorem claim4_counterexample :
    Wrapped.validate_state_change Ex.cfgW Ex.txW Ex.rdmW Ex.utxoW = .ok () ∧
    Ex.utxoW.datum = some ⟨Ex.sW0, 1, Cip68Extra.Unused⟩ ∧
    Wrapped.find_ref_output Ex.cfgW Ex.txW
      = some ⟨Addr.own, [(Wrapped.ref_token_name Ex.cfgW, 1)],
          some ⟨Ex.sW1, 1, Cip68Extra.Unused⟩⟩ ∧
    Ex.sW1.type ≠ Ex.sW0.type :=
  ⟨ex_wrapped_ok, rfl, rfl, by decide⟩

/-- C4 (amended): in every accepted state change, the one-to-one and
aggregate variants preserve type, account, ticker and decimals from the
prior record; the wrapped variant preserves venue, policy, account,
ticker and decimals from the prior record, while its type, quorum,
oracles and seed are instead forced to equal the compile-time constants
(hence equal the prior only when the prior conforms to the constants). -/
theorem claim4_identity_fields :
    (∀ (cfg : OneToOne.Config) (tx : Tx (Metadata OneToOne.State)) (redeemer : OneToOne.Redeemer)
       (utxo : TxInput (Metadata OneToOne.State)) (md0 md1 : Metadata OneToOne.State)
       (output : TxOutput (Metadata OneToOne.State)),
       utxo.datum = some md0 → OneToOne.find_ref_output cfg tx = some output →
       output.datum = some md1 →
       OneToOne.validate_state_change cfg tx redeemer utxo = .ok () →
       md1.state.type = md0.state.type ∧ md1.state.account = md0.state.account ∧
         md1.state.ticker = md0.state.ticker ∧ md1.state.decimals = md0.state.decimals) ∧
    (∀ (cfg : Aggregate.Config) (tx : Tx (Metadata Aggregate.State)) (redeemer : Aggregate.Redeemer)
       (utxo : TxInput (Metadata Aggregate.State)) (md0 md1 : Metadata Aggregate.State)
       (output : TxOutput (Metadata Aggregate.State)),
       utxo.datum = some md0 → Aggregate.find_ref_output cfg tx = some output →
       output.datum = some md1 →
       Aggregate.validate_state_change cfg tx redeemer utxo = .ok () →
       md1.state.type = md0.state.type ∧ md1.state.account = md0.state.account ∧
         md1.state.ticker = md0.state.ticker ∧ md1.state.decimals = md0.state.decimals) ∧
    (∀ (cfg : Wrapped.Config) (tx : Tx (Metadata Wrapped.State)) (redeemer : Wrapped.Redeemer)
       (utxo : TxInput (Metadata Wrapped.State)) (md0 md1 : Metadata Wrapped.State)
       (output : TxOutput (Metadata Wrapped.State)),
       utxo.datum = some md0 → Wrapped.find_ref_output cfg tx = some output →
       output.datum = some md1 →
       Wrapped.validate_state_change cfg tx redeemer utxo = .ok () →
       md1.state.venue = md0.state.venue ∧ md1.state.policy = md0.state.policy ∧
         md1.state.account = md0.state.account ∧ md1.state.ticker = md0.state.ticker ∧
         md1.state.decimals = md0.state.decimals ∧ md1.state.type = cfg.TYPE ∧
         md1.state.quorum = (Wrapped.QUORUM cfg : Int) ∧ md1.state.oracles = cfg.ORACLES ∧
         md1.state.seed = cfg.SEED) := by
  refine ⟨?_, ?_, ?_⟩
  · intro cfg tx redeemer utxo md0 md1 output h0 hf h1 hok
    simp only [OneToOne.validate_state_change, h0, hf, h1] at hok
    have h := (one_to_one_state_change_ok_iff _ _ _ _ _ _).mp hok
    exact ⟨h.1, h.2.1, h.2.2.1, h.2.2.2.1⟩
  · intro cfg tx redeemer utxo md0 md1 output h0 hf h1 hok
    simp only [Aggregate.validate_state_change, h0, hf, h1] at hok
    have h := (aggregate_state_change_ok_iff _ _ _ _ _ _).mp hok
    exact ⟨h.1, h.2.1, h.2.2.1, h.2.2.2.1⟩
  · intro cfg tx redeemer utxo md0 md1 output h0 hf h1 hok
    simp only [Wrapped.validate_state_change, h0, hf, h1] at hok
    have h := (wrapped_state_change_ok_iff _ _ _ _ _ _).mp hok
    exact ⟨h.2.1, h.2.2.1, h.2.2.2.1, h.2.2.2.2.1, h.2.2.2.2.2.1, h.1,
      h.2.2.2.2.2.2.1, h.2.2.2.2.2.2.2.1, h.2.2.2.2.2.2.2.2.1⟩

/-- Witness for C4 at the accepted aggregate burn. -/
theorem claim4_witness :
    Ex.sA1burn.type = Ex.sA0.type ∧ Ex.sA1burn.account = Ex.sA0.account ∧
    Ex.sA1burn.ticker = Ex.sA0.ticker ∧ Ex.sA1burn.decimals = Ex.sA0.decimals :=
  claim4_identity_fields.2.1 Ex.cfgA Ex.txBurn Ex.rdmBurn Ex.utxoA ⟨Ex.sA0, 1, Cip68Extra.Unused⟩
    ⟨Ex.sA1burn, 1, Cip68Extra.Unused⟩
    ⟨Addr.own, [(Aggregate.ref_token_name Ex.cfgA, 1)], some ⟨Ex.sA1burn, 1, Cip68Extra.Unused⟩⟩
    rfl rfl rfl ex_burn_ok

/-- C5 counterexample: with k = 2 configured oracles, one signer already
meets the wrapped-variant quorum (threshold (k+1)/2 = 1 by integer
division), although the claimed threshold ceil((k+1)/2) = 2 is not met. -/
theorem claim5_counterexample :
    Wrapped.signed_by_quorum Ex.cfgW5 [1] = true ∧
    n_signers Ex.cfgW5.ORACLES [1] = 1 ∧
    Ex.cfgW5.ORACLES.length = 2 ∧
    ¬ (n_signers Ex.cfgW5.ORACLES [1] ≥ (Ex.cfgW5.ORACLES.length + 1 + 1) / 2) := by
  decide

/-- C5 (amended): the wrapped-variant quorum passes exactly when at least
(k+1)/2 (integer division, the floor) of the k configured keys signed;
the one-to-one and aggregate variants pass exactly when strictly more
than k/2 of the k configured keys signed. -/
theorem claim5_quorum_thresholds (cfgW : Wrapped.Config) (cfgO : OneToOne.Config)
    (cfgA : Aggregate.Config) (sigs : List PubKeyHash) :
    (Wrapped.signed_by_quorum cfgW sigs = true ↔
      (cfgW.ORACLES.filter (fun key => sigs.contains key)).length
        ≥ (cfgW.ORACLES.length + 1) / 2) ∧
    (OneToOne.signed_by_quorum cfgO sigs = true ↔
      (cfgO.ORACLE_KEYS.filter (fun key => sigs.contains key)).length
        > cfgO.ORACLE_KEYS.length / 2) ∧
    (Aggregate.signed_by_quorum cfgA sigs = true ↔
      (cfgA.ORACLE_KEYS.filter (fun key => sigs.contains key)).length
        > cfgA.ORACLE_KEYS.length / 2) := by
  simp [Wrapped.signed_by_quorum, OneToOne.signed_by_quorum, Aggregate.signed_by_quorum,
    n_signers_eq_filter_length, Wrapped.QUORUM]

/-- C6: in every accepted aggregate state change, a positive mint sets the
supply tracking field to the proposed current supply and the transfer-id
tracking field to the declared latest transfer id, while a burn or no-op
leaves both tracking fields at their prior values. -/
theorem claim6_tracking_fields (cfg : Aggregate.Config) (tx : Tx (Metadata Aggregate.State))
    (redeemer : Aggregate.Redeemer) (utxo : TxInput (Metadata Aggregate.State))
    (md0 md1 : Metadata Aggregate.State) (output : TxOutput (Metadata Aggregate.State))
    (h0 : utxo.datum = some md0) (hf : Aggregate.find_ref_output cfg tx = some output)
    (h1 : output.datum = some md1)
    (hok : Aggregate.validate_state_change cfg tx redeemer utxo = .ok ()) :
    (0 < Aggregate.minted_n cfg tx →
      md1.state.supply_after_last_mint = md1.state.current_supply ∧
      md1.state.transfer_id_before_last_mint = redeemer.latest_transfer_id) ∧
    (Aggregate.minted_n cfg tx ≤ 0 →
      md1.state.supply_after_last_mint = md0.state.supply_after_last_mint ∧
      md1.state.transfer_id_before_last_mint = md0.state.transfer_id_before_last_mint) := by
  simp only [Aggregate.validate_state_change, h0, hf, h1] at hok
  have h := (aggregate_state_change_ok_iff _ _ _ _ _ _).mp hok
  exact ⟨fun hn => ⟨(h.2.2.2.2.2.1 hn).2.2.1, (h.2.2.2.2.2.1 hn).2.1⟩,
    fun hn => ⟨(h.2.2.2.2.2.2 (by omega)).1, (h.2.2.2.2.2.2 (by omega)).2⟩⟩

/-- Witness for C6 at the accepted aggregate burn. -/
theorem claim6_witness :
    Ex.sA1burn.supply_after_last_mint = Ex.sA0.supply_after_last_mint ∧
    Ex.sA1burn.transfer_id_before_last_mint = Ex.sA0.transfer_id_before_last_mint :=
  (claim6_tracking_fields Ex.cfgA Ex.txBurn Ex.rdmBurn Ex.utxoA ⟨Ex.sA0, 1, Cip68Extra.Unused⟩
    ⟨Ex.sA1burn, 1, Cip68Extra.Unused⟩
    ⟨Addr.own, [(Aggregate.ref_token_name Ex.cfgA, 1)], some ⟨Ex.sA1burn, 1, Cip68Extra.Unused⟩⟩
    rfl rfl rfl ex_burn_ok).2 (by decide)

/-- C7 counterexample: the wrapped variant accepts a genesis transition
whose produced datum has oracles [2] while the compile-time constant
oracle list is [1]: `validate_initialization` never compares the oracles
field of the datum against the constant. -/
theorem claim7_counterexample :
    Wrapped.validate_initialization Ex.cfgW7 Ex.txG = .ok () ∧
    Wrapped.find_genesis_output Ex.cfgW7 Ex.txG
      = some ⟨Addr.own, [(Wrapped.ref_token_name Ex.cfgW7, 1)],
          some ⟨Ex.sG, 1, Cip68Extra.Unused⟩⟩ ∧
    Ex.sG.oracles ≠ Ex.cfgW7.ORACLES :=
  ⟨ex_genesis_ok, rfl, by decide⟩

/-- C7 (amended): an initialization is accepted exactly when the seed
reference is consumed and the first output at the own address holding one
reference token carries the required genesis datum.  In the one-to-one and
aggregate variants the datum must equal the full compile-time constant
record (aggregate: with both tracking fields at zero), version 1, extra
Unused; in the wrapped variant the checked fields are supply = 0, type,
venue, policy, account, ticker, decimals, quorum and seed plus version and
extra, while the oracles field and the display fields of the datum are not
checked. -/
theorem claim7_initialization :
    (∀ (cfg : OneToOne.Config) (tx : Tx (Metadata OneToOne.State)),
      OneToOne.validate_initialization cfg tx = .ok () ↔
        (OneToOne.seed_consumed cfg tx = true ∧
         ∃ o, OneToOne.find_genesis_output cfg tx = some o ∧
           o.datum = some (OneToOne.initialMetadata cfg))) ∧
    (∀ (cfg : Aggregate.Config) (tx : Tx (Metadata Aggregate.State)),
      Aggregate.validate_initialization cfg tx = .ok () ↔
        (Aggregate.seed_consumed cfg tx = true ∧
         ∃ o, Aggregate.find_genesis_output cfg tx = some o ∧
           o.datum = some (Aggregate.initialMetadata cfg))) ∧
    (∀ (cfg : Wrapped.Config) (tx : Tx (Metadata Wrapped.State)),
      Wrapped.validate_initialization cfg tx = .ok () ↔
        (Wrapped.seed_consumed cfg tx = true ∧
         ∃ o md, Wrapped.find_genesis_output cfg tx = some o ∧ o.datum = some md ∧
           md.state.supply = 0 ∧ md.state.type = cfg.TYPE ∧ md.state.venue = cfg.VENUE ∧
           md.state.policy = cfg.POLICY ∧ md.state.account = cfg.ACCOUNT ∧
           md.state.ticker = cfg.TICKER ∧ md.state.decimals = cfg.DECIMALS ∧
           md.state.quorum = (Wrapped.QUORUM cfg : Int) ∧ md.state.seed = cfg.SEED ∧
           md.version = 1 ∧ md.extra = Cip68Extra.Unused)) :=
  ⟨one_to_one_init_ok_iff, aggregate_init_ok_iff, wrapped_init_ok_iff⟩

/-- C8: when no positive quantity of the user token is minted (burn or
no-op), the verdict of every variant is independent of the transaction
signatories, and a burn is accepted with zero signatures (the concrete
burn example carries an empty signatory list). -/
theorem claim8_burn_signer_independence :
    (∀ (cfg : Wrapped.Config) (tx : Tx (Metadata Wrapped.State)) (sigs : List PubKeyHash)
       (redeemer : Wrapped.Redeemer) (utxo : TxInput (Metadata Wrapped.State)),
       Wrapped.minted_n cfg tx ≤ 0 →
       Wrapped.validate_state_change cfg { tx with signatories := sigs } redeemer utxo
         = Wrapped.validate_state_change cfg tx redeemer utxo) ∧
    (∀ (cfg : OneToOne.Config) (tx : Tx (Metadata OneToOne.State)) (sigs : List PubKeyHash)
       (redeemer : OneToOne.Redeemer) (utxo : TxInput (Metadata OneToOne.State)),
       OneToOne.minted_n cfg tx ≤ 0 →
       OneToOne.validate_state_change cfg { tx with signatories := sigs } redeemer utxo
         = OneToOne.validate_state_change cfg tx redeemer utxo) ∧
    (∀ (cfg : Aggregate.Config) (tx : Tx (Metadata Aggregate.State)) (sigs : List PubKeyHash)
       (redeemer : Aggregate.Redeemer) (utxo : TxInput (Metadata Aggregate.State)),
       Aggregate.minted_n cfg tx ≤ 0 →
       Aggregate.validate_state_change cfg { tx with signatories := sigs } redeemer utxo
         = Aggregate.validate_state_change cfg tx redeemer utxo) ∧
    (Ex.txBurn.signatories = [] ∧
     Aggregate.validate_state_change Ex.cfgA Ex.txBurn Ex.rdmBurn Ex.utxoA = .ok ()) := by
  refine ⟨?_, ?_, ?_, rfl, ex_burn_ok⟩
  · intro cfg tx sigs redeemer utxo hn
    have e1 : Wrapped.find_ref_output cfg { tx with signatories := sigs }
        = Wrapped.find_ref_output cfg tx := rfl
    have e2 : Wrapped.minted_n cfg { tx with signatories := sigs }
        = Wrapped.minted_n cfg tx := rfl
    unfold Wrapped.validate_state_change
    rw [e1, e2]
    cases hd : utxo.datum with
    | none => rfl
    | some md0 =>
      dsimp only
      cases hf : Wrapped.find_ref_output cfg tx with
      | none => rfl
      | some output =>
        dsimp only
        cases ho : output.datum with
        | none => rfl
        | some md1 =>
          dsimp only
          exact wrapped_checks_signer_indep cfg _ _ redeemer md0.state md1.state _ hn
  · intro cfg tx sigs redeemer utxo hn
    have e1 : OneToOne.find_ref_output cfg { tx with signatories := sigs }
        = OneToOne.find_ref_output cfg tx := rfl
    have e2 : OneToOne.minted_n cfg { tx with signatories := sigs }
        = OneToOne.minted_n cfg tx := rfl
    unfold OneToOne.validate_state_change
    rw [e1, e2]
    cases hd : utxo.datum with
    | none => rfl
    | some md0 =>
      dsimp only
      cases hf : OneToOne.find_ref_output cfg tx with
      | none => rfl
      | some output =>
        dsimp only
        cases ho : output.datum with
        | none => rfl
        | some md1 =>
          dsimp only
          exact one_to_one_checks_signer_indep cfg _ _ redeemer md0.state md1.state _ hn
  · intro cfg tx sigs redeemer utxo hn
    have e1 : Aggregate.find_ref_output cfg { tx with signatories := sigs }
        = Aggregate.find_ref_output cfg tx := rfl
    have e2 : Aggregate.minted_n cfg { tx with signatories := sigs }
        = Aggregate.minted_n cfg tx := rfl
    unfold Aggregate.validate_state_change
    rw [e1, e2]
    cases hd : utxo.datum with
    | none => rfl
    | some md0 =>
      dsimp only
      cases hf : Aggregate.find_ref_output cfg tx with
      | none => rfl
      | some output =>
        dsimp only
        cases ho : output.datum with
        | none => rfl
        | some md1 =>
          dsimp only
          exact aggregate_checks_signer_indep cfg _ _ redeemer md0.state md1.state _ hn

/-- Witness for C8: adding a signer to the zero-signature burn does not
change the verdict. -/
theorem claim8_witness :
    Aggregate.validate_state_change Ex.cfgA { Ex.txBurn with signatories := [7] } Ex.rdmBurn
        Ex.utxoA
      = Aggregate.validate_state_change Ex.cfgA Ex.txBurn Ex.rdmBurn Ex.utxoA :=
  claim8_burn_signer_independence.2.2.1 Ex.cfgA Ex.txBurn [7] Ex.rdmBurn Ex.utxoA (by decide)

/-- C9: in all three variants, spending a UTXO that holds no tokens of the
own minting policy is accepted unconditionally, for every redeemer, every
datum and every surrounding transaction. -/
theorem claim9_zero_token_spend :
    (∀ (cfg : Wrapped.Config) (tx : Tx (Metadata Wrapped.State)) (redeemer : Wrapped.Redeemer)
       (oid : TxOutputId) (addr : Addr) (datum : Option (Metadata Wrapped.State)),
       Wrapped.main_spending cfg tx redeemer ⟨oid, addr, [], datum⟩ = .ok ()) ∧
    (∀ (cfg : OneToOne.Config) (tx : Tx (Metadata OneToOne.State)) (redeemer : OneToOne.Redeemer)
       (oid : TxOutputId) (addr : Addr) (datum : Option (Metadata OneToOne.State)),
       OneToOne.main_spending cfg tx redeemer ⟨oid, addr, [], datum⟩ = .ok ()) ∧
    (∀ (cfg : Aggregate.Config) (tx : Tx (Metadata Aggregate.State)) (redeemer : Aggregate.Redeemer)
       (oid : TxOutputId) (addr : Addr) (datum : Option (Metadata Aggregate.State)),
       Aggregate.main_spending cfg tx redeemer ⟨oid, addr, [], datum⟩ = .ok ()) :=
  ⟨fun _ _ _ _ _ _ => rfl, fun _ _ _ _ _ _ => rfl, fun _ _ _ _ _ _ => rfl⟩

/-- C10: in all three variants, a minting-path transaction that mints or
burns a nonzero quantity of the user token is accepted only if some
transaction input sits at the own validator address and holds a positive
amount of the reference token; without such an input the transaction is
rejected. -/
theorem claim10_user_mint_needs_ref :
    (∀ (cfg : Wrapped.Config) (tx : Tx (Metadata Wrapped.State)),
       Wrapped.main_minting cfg tx = .ok () →
       get_safe tx.mintedOwn (Wrapped.user_token_name cfg) ≠ 0 →
       tx.inputs.any (fun input => decide (input.address = Addr.own ∧
         0 < get_safe input.ownTokens (Wrapped.ref_token_name cfg))) = true) ∧
    (∀ (cfg : OneToOne.Config) (tx : Tx (Metadata OneToOne.State)),
       OneToOne.main_minting cfg tx = .ok () →
       get_safe tx.mintedOwn (OneToOne.user_token_name cfg) ≠ 0 →
       tx.inputs.any (fun input => decide (input.address = Addr.own ∧
         0 < get_safe input.ownTokens (OneToOne.ref_token_name cfg))) = true) ∧
    (∀ (cfg : Aggregate.Config) (tx : Tx (Metadata Aggregate.State)),
       Aggregate.main_minting cfg tx = .ok () →
       get_safe tx.mintedOwn (Aggregate.user_token_name cfg) ≠ 0 →
       tx.inputs.any (fun input => decide (input.address = Addr.own ∧
         0 < get_safe input.ownTokens (Aggregate.ref_token_name cfg))) = true) := by
  refine ⟨?_, ?_, ?_⟩
  · intro cfg tx hok hqty
    unfold Wrapped.main_minting at hok
    cases hm : tx.mintedOwn with
    | nil => simp [hm] at hok
    | cons head tail =>
      obtain ⟨name, qty⟩ := head
      simp only [hm] at hok
      rw [req_ok] at hok
      obtain ⟨htail, hok⟩ := hok
      by_cases hcase : name = Wrapped.user_token_name cfg ∧ qty ≠ 0
      · rw [if_pos hcase, req_ok] at hok
        exact hok.1
      · rw [if_neg hcase] at hok
        by_cases hcase2 : qty = 1 ∧ name = Wrapped.ref_token_name cfg
        · exfalso
          rw [hm, htail, hcase2.2] at hqty
          simp [get_safe, wrapped_ref_ne_user cfg] at hqty
        · rw [if_neg hcase2] at hok
          simp at hok
  · intro cfg tx hok hqty
    unfold OneToOne.main_minting at hok
    cases hm : tx.mintedOwn with
    | nil => simp [hm] at hok
    | cons head tail =>
      obtain ⟨name, qty⟩ := head
      simp only [hm] at hok
      rw [req_ok] at hok
      obtain ⟨htail, hok⟩ := hok
      by_cases hcase : name = OneToOne.user_token_name cfg ∧ qty ≠ 0
      · rw [if_pos hcase, req_ok] at hok
        exact hok.1
      · rw [if_neg hcase] at hok
        by_cases hcase2 : qty = 1 ∧ name = OneToOne.ref_token_name cfg
        · exfalso
          rw [hm, htail, hcase2.2] at hqty
          simp [get_safe, one_to_one_ref_ne_user cfg] at hqty
        · rw [if_neg hcase2] at hok
          simp at hok
  · intro cfg tx hok hqty
    unfold Aggregate.main_minting at hok
    cases hm : tx.mintedOwn with
    | nil => simp [hm] at hok
    | cons head tail =>
      obtain ⟨name, qty⟩ := head
      simp only [hm] at hok
      rw [req_ok] at hok
      obtain ⟨htail, hok⟩ := hok
      by_cases hcase : name = Aggregate.user_token_name cfg ∧ qty ≠ 0
      · rw [if_pos hcase, req_ok] at hok
        exact hok.1
      · rw [if_neg hcase] at hok
        by_cases hcase2 : qty = 1 ∧ name = Aggregate.ref_token_name cfg
        · exfalso
          rw [hm, htail, hcase2.2] at hqty
          simp [get_safe, aggregate_ref_ne_user cfg] at hqty
        · rw [if_neg hcase2] at hok
          simp at hok

/-- Witness for C10 at the accepted one-to-one user-token mint. -/
theorem claim10_witness :
    Ex.txO10.inputs.any (fun input => decide (input.address = Addr.own ∧
      0 < get_safe input.ownTokens (OneToOne.ref_token_name Ex.cfgO))) = true :=
  claim10_user_mint_needs_ref.2.1 Ex.cfgO Ex.txO10 ex_one_to_one_mint_ok (by decide)
